import Mathlib

set_option maxRecDepth 40000

/-!
Verification development for the `recomending-system` repository: a shallow
embedding, in Lean 4, of the product-recommendation chatbot's pure logic.

Sources embedded:
- `src/data/products.py` : the static catalog `PRODUCTS` and its accessors.
- `src/utils/vector_store.py` : `ProductVectorStore` (embedding wrapper,
  index population with batched upserts, similarity search with filters).
- `src/utils/chatbot.py` : `ProductRecommendationChatbot` (intent extraction
  with keyword fallback, retrieval dispatch, response formatting, `chat`).

Modelling conventions:
- External effects (the hosted language model, the hosted embedding model and
  the hosted vector index) are passed in as explicit oracle arguments; a raised
  exception from an external call is modelled as the oracle returning `none`.
- Python dictionaries with fixed keys become structures; `None`-able fields
  become `Option`; Python truthiness on a string-or-`None` value is `truthyStr`.
- Similarity scores are modelled in exact hundredths (a `Nat` equal to
  100 x score), so that Python's `"%.2f"` rendering of a score is the exact
  decimal rendering `formatFixed2`; floating-point rounding of non-hundredth
  values is outside the model.
- `json.dumps`/`json.loads` round-tripping of `specs`/`features`/`tags`
  through index metadata is modelled as the identity, and the free-form JSON
  decoding done by `json.loads` on model replies is an oracle argument
  `decodeJson`, since both belong to the Python standard library, not to this
  repository.
-/

/-- Python's substring containment `needle in haystack`, on `List Char`:
is `needle` a prefix of some suffix of `haystack`. -/
def subSearch (needle : List Char) : List Char → Bool
  | [] => List.isPrefixOf needle []
  | c :: rest => List.isPrefixOf needle (c :: rest) || subSearch needle rest

/-- Python's `needle in haystack` on strings. -/
def pyIn (needle haystack : String) : Bool :=
  subSearch needle.data haystack.data

/-- Python's `str.lower()` (ASCII case folding, which covers every string this
program manipulates). -/
def lowerStr (s : String) : String :=
  String.mk (s.data.map Char.toLower)

/-- Python truthiness of a string-or-`None` value: `None` and `""` are falsy. -/
def truthyStr : Option String → Bool
  | none => false
  | some s => s != ""

/-- A catalog product (`src/data/products.py`): one entry of `PRODUCTS`.
`specs` is the ordered key/value mapping of the Python dict; products coming
back from a similarity search additionally carry `similarity_score` (absent,
i.e. `none`, on raw catalog entries). -/
structure Product where
  id : String
  name : String
  category : String
  brand : String
  price : Int
  description : String
  specs : List (String × String)
  features : List String
  tags : List String
  similarity_score : Option Nat
deriving DecidableEq

/-- Dict lookup in a product's `specs` mapping (`'key' in specs` plus
`specs['key']`). -/
def lookupSpec (key : String) (specs : List (String × String)) : Option String :=
  (specs.find? (fun kv => kv.1 == key)).map (fun kv => kv.2)

/-- The search intent extracted from one user turn
(`ProductRecommendationChatbot._extract_search_intent`): the dict with keys
`category`, `min_price`, `max_price`, `brand`, `features`, `search_query`. -/
structure SearchIntent where
  category : Option String
  min_price : Option Int
  max_price : Option Int
  brand : Option String
  features : List String
  search_query : String
deriving DecidableEq

/-- One record handed to the index `upsert` by `populate_index`:
the `(product["id"], embedding, metadata)` triple, with the metadata's scalar
fields and JSON-decoded `specs`/`features`/`tags` kept in structured form. -/
structure UpsertRecord where
  id : String
  embedding : List Int
  metadata : Product
deriving DecidableEq

/-- The structured metadata filter passed to the index `query`
(`search_products` / `search_by_category` / `search_by_brand` /
`search_by_price_range` in `src/utils/vector_store.py`): equality on
`category` or `brand`, a `$gte`/`$lte` range on `price`, or no filter. -/
inductive FilterDict where
  | category (c : String)
  | brand (b : String)
  | price (gte lte : Int)
  | noFilter
deriving DecidableEq

/-- One match returned by the index `query` call: flat metadata (decoded back
into a `Product`; its own `similarity_score` field is irrelevant) plus the
similarity score, in hundredths. -/
structure QueryMatch where
  metadata : Product
  score : Nat
deriving DecidableEq

/-- `ProductVectorStore._generate_embedding`: call the hosted embedding model;
on success return its vector, on a raised exception (`none`) log and return
the empty list. -/
def generate_embedding (callResult : Option (List Int)) : List Int :=
  match callResult with
  | some vector => vector
  | none => []

/-- `ProductVectorStore._create_product_text`: the stripped multi-line
f-string (inner lines keep the source's 8-space indentation), with
`specs_text`, `features_text` and `tags_text` joined by single spaces. -/
def create_product_text (product : Product) : String :=
  let specs_text := String.intercalate " "
    (product.specs.map (fun kv => kv.1 ++ ": " ++ kv.2))
  let features_text := String.intercalate " " product.features
  let tags_text := String.intercalate " " product.tags
  "Product: " ++ product.name ++
  "\n        Category: " ++ product.category ++
  "\n        Brand: " ++ product.brand ++
  "\n        Price: $" ++ toString product.price ++
  "\n        Description: " ++ product.description ++
  "\n        Specifications: " ++ specs_text ++
  "\n        Features: " ++ features_text ++
  "\n        Tags: " ++ tags_text

/-- The vector-building loop of `ProductVectorStore.populate_index`: for each
product, generate the embedding of its text (the oracle `embedCall` stands for
the hosted embedding endpoint; `none` models a raised exception) and append an
`(id, embedding, metadata)` record only when the embedding is non-empty
(`if embedding:`). -/
def buildVectors (embedCall : String → Option (List Int)) (products : List Product) :
    List UpsertRecord :=
  products.filterMap (fun product =>
    let embedding := generate_embedding (embedCall (create_product_text product))
    if embedding.isEmpty then none
    else some { id := product.id, embedding := embedding, metadata := product })

/-- The batched-upsert loop of `populate_index`, recursing on the number of
remaining iterations (at most `len(vectors)`, since each iteration of
`range(0, len(vectors), batch_size)` consumes at least one record): slice off
`vectors[i:i+batch_size]` with `batch_size = 100` until nothing remains. -/
def upsertLoop (fuel : Nat) (vectors : List UpsertRecord) : List (List UpsertRecord) :=
  match vectors, fuel with
  | [], _ => []
  | _ :: _, 0 => []
  | v@(_ :: _), fuel + 1 => v.take 100 :: upsertLoop fuel (v.drop 100)

/-- The batched-upsert loop of `populate_index`:
`for i in range(0, len(vectors), batch_size): self.index.upsert(vectors[i:i+batch_size])`
with `batch_size = 100`; the result lists the successive `upsert` payloads. -/
def upsertBatches (vectors : List UpsertRecord) : List (List UpsertRecord) :=
  upsertLoop vectors.length vectors

/-- `ProductVectorStore.populate_index`, applied to a catalog `products`
(the source iterates the global `PRODUCTS`; the spec's batching property
quantifies over catalogs of other sizes, so the catalog is a parameter).
Returns the list of batched upsert calls and the count printed at the end
(`len(vectors)`). -/
def populate_index (embedCall : String → Option (List Int)) (products : List Product) :
    List (List UpsertRecord) × Nat :=
  let vectors := buildVectors embedCall products
  (upsertBatches vectors, vectors.length)

/-- The per-match formatting inside `ProductVectorStore.search_products`:
rebuild a product dict from the match metadata and attach
`"similarity_score": match.score`. -/
def matchToProduct (m : QueryMatch) : Product :=
  { m.metadata with similarity_score := some m.score }

/-- `ProductVectorStore.search_products`: embed the query (empty embedding
short-circuits to `[]` without touching the index), then run the index query
(the oracle `indexCall`, taking the metadata filter and `top_k`; `none` models
a raised exception, which is caught and yields `[]`) and format the matches. -/
def search_products (embedCall : String → Option (List Int))
    (indexCall : FilterDict → Nat → Option (List QueryMatch))
    (query : String) (top_k : Nat := 5) (filter_dict : FilterDict := FilterDict.noFilter) :
    List Product :=
  let query_embedding := generate_embedding (embedCall query)
  if query_embedding.isEmpty then []
  else
    match indexCall filter_dict top_k with
    | none => []
    | some results => results.map matchToProduct

/-- `ProductVectorStore.search_by_category`: `filter_dict = {"category": category}`. -/
def search_by_category (embedCall : String → Option (List Int))
    (indexCall : FilterDict → Nat → Option (List QueryMatch))
    (category : String) (query : String := "") (top_k : Nat := 5) : List Product :=
  search_products embedCall indexCall query top_k (FilterDict.category category)

/-- `ProductVectorStore.search_by_price_range`:
`filter_dict = {"price": {"$gte": min_price, "$lte": max_price}}`. -/
def search_by_price_range (embedCall : String → Option (List Int))
    (indexCall : FilterDict → Nat → Option (List QueryMatch))
    (min_price max_price : Int) (query : String := "") (top_k : Nat := 5) : List Product :=
  search_products embedCall indexCall query top_k (FilterDict.price min_price max_price)

/-- `ProductVectorStore.search_by_brand`: `filter_dict = {"brand": brand}`. -/
def search_by_brand (embedCall : String → Option (List Int))
    (indexCall : FilterDict → Nat → Option (List QueryMatch))
    (brand : String) (query : String := "") (top_k : Nat := 5) : List Product :=
  search_products embedCall indexCall query top_k (FilterDict.brand brand)

/-- The brace-substring extraction in
`ProductRecommendationChatbot._parse_intent_response`:
`response[response.find("{") : response.rfind("}") + 1]`. -/
def extractBraced (response : String) : String :=
  let chars := response.data
  let start := List.indexOf (Char.ofNat 123) chars
  let stop := chars.length - 1 - List.indexOf (Char.ofNat 125) chars.reverse
  String.mk ((chars.drop start).take (stop + 1 - start))

/-- The guarded structured-decode attempt of `_parse_intent_response`: only
when the reply contains both braces is the braced substring handed to
`json.loads` (the oracle `decodeJson`; `none` models a parse failure or a
decoded value without the expected shape). -/
def attemptDecode (decodeJson : String → Option SearchIntent) (response : String) :
    Option SearchIntent :=
  if response.data.contains (Char.ofNat 123) && response.data.contains (Char.ofNat 125) then
    decodeJson (extractBraced response)
  else none

/-- The keyword fallback of `_parse_intent_response`: the `if`/`elif` chain of
`any(word in response.lower() for word in [...])` checks. -/
def fallbackCategory (response : String) : Option String :=
  if ["phone", "smartphone", "iphone", "android"].any
      (fun word => pyIn word (lowerStr response)) then some "phone"
  else if ["laptop", "computer", "macbook", "notebook"].any
      (fun word => pyIn word (lowerStr response)) then some "laptop"
  else if ["tablet", "ipad", "android tablet"].any
      (fun word => pyIn word (lowerStr response)) then some "tablet"
  else none

/-- `ProductRecommendationChatbot._parse_intent_response`: try the structured
decode of the braced substring; on failure fall back to the keyword rules,
with `search_query` set to the model reply itself. -/
def parse_intent_response (decodeJson : String → Option SearchIntent) (response : String) :
    SearchIntent :=
  match attemptDecode decodeJson response with
  | some intent => intent
  | none =>
    { category := fallbackCategory response
      min_price := none
      max_price := none
      brand := none
      features := []
      search_query := response }

/-- `ProductRecommendationChatbot._extract_search_intent`: invoke the language
model on the intent prompt (`llmReply`; `none` models the call raising) and
parse its reply; when the call itself raises, return the all-unset intent with
`search_query` equal to the raw user message. -/
def extract_search_intent (decodeJson : String → Option SearchIntent)
    (llmReply : Option String) (user_message : String) : SearchIntent :=
  match llmReply with
  | some response => parse_intent_response decodeJson response
  | none =>
    { category := none
      min_price := none
      max_price := none
      brand := none
      features := []
      search_query := user_message }

/-- Python's `f"{x:.2f}"` on a score of `s` hundredths. -/
def formatFixed2 (s : Nat) : String :=
  toString (s / 100) ++ "." ++
    (if s % 100 < 10 then "0" ++ toString (s % 100) else toString (s % 100))

/-- The body of the `for i, product in enumerate(products[:3], 1)` loop in
`ProductRecommendationChatbot._format_product_recommendations`, transcribed
line by line (each `response += ...` statement in source order). -/
def renderProduct (i : Nat) (product : Product) : String :=
  let response := "**" ++ toString i ++ ". " ++ product.name ++ "** ($" ++
    toString product.price ++ ")\n"
  let response := response ++ "   Brand: " ++ product.brand ++ "\n"
  let response := response ++ "   Description: " ++ product.description ++ "\n"
  let response :=
    match lookupSpec "screen_size" product.specs with
    | some v => response ++ "   Screen: " ++ v ++ "\n"
    | none => response
  let response :=
    match lookupSpec "storage" product.specs with
    | some v => response ++ "   Storage: " ++ v ++ "\n"
    | none => response
  let response :=
    match lookupSpec "processor" product.specs with
    | some v => response ++ "   Processor: " ++ v ++ "\n"
    | none => response
  let response :=
    if product.features.isEmpty then response
    else response ++ "   Key Features: " ++
      String.intercalate ", " (product.features.take 3) ++ "\n"
  response ++ "   Match Score: " ++ formatFixed2 (product.similarity_score.getD 0) ++ "\n\n"

/-- The `enumerate(products[:3], 1)` loop itself, threading the accumulated
response string and the 1-based rank. -/
def renderLoop (response : String) (i : Nat) : List Product → String
  | [] => response
  | product :: rest => renderLoop (response ++ renderProduct i product) (i + 1) rest

/-- `ProductRecommendationChatbot._format_product_recommendations`
(the deterministic templated composer). -/
def format_product_recommendations (products : List Product) : String :=
  if products.isEmpty then
    "I couldn\x27t find any products matching your requirements. Could you please provide more details about what you\x27re looking for?"
  else
    let response := "Here are some great options for you:\n\n"
    let response := renderLoop response 1 (products.take 3)
    let response :=
      if 3 < products.length then
        response ++ "... and " ++ toString (products.length - 3) ++ " more options available.\n\n"
      else response
    response ++ "Would you like me to provide more details about any of these products or help you narrow down your search?"

/-- `ProductRecommendationChatbot._generate_contextual_response`: on an empty
product list return the short no-results sentence; otherwise ask the language
model (`composeCall`; `none` models the call raising) and fall back to the
templated formatter on failure. -/
def generate_contextual_response (composeCall : Option String) (products : List Product) :
    String :=
  if products.isEmpty then
    "I couldn\x27t find any products matching your requirements. Could you please provide more details about what you\x27re looking for?"
  else
    match composeCall with
    | some content => content
    | none => format_product_recommendations products

/-- The fixed clarification message returned by `chat` when retrieval yields
no products (`src/utils/chatbot.py`, line 253). -/
def clarificationMsg : String :=
  "I couldn\x27t find any products matching your requirements. Could you please provide more details about what you\x27re looking for? For example:\n- What type of device (phone, laptop, tablet)?\n- What\x27s your budget range?\n- Any specific features you need?\n- Preferred brand?"

/-- The generic apology returned by `chat`\x27s top-level exception handler
(`src/utils/chatbot.py`, line 259). -/
def apologyMsg : String :=
  "I\x27m sorry, I encountered an error while processing your request. Please try again or rephrase your question."

/-- The external-call oracles one `chat` turn can make: the `json.loads`
decoder, the intent-extraction model call, the embedding endpoint, the index
query endpoint, and the conversational-composer model call. A `none` result
models the corresponding call raising an exception. -/
structure ChatEnv where
  decodeJson : String → Option SearchIntent
  llmIntentReply : Option String
  embedCall : String → Option (List Int)
  indexCall : FilterDict → Nat → Option (List QueryMatch)
  composeCall : Option String

/-- The intent `chat` computes for a user message. -/
def intentOf (env : ChatEnv) (user_message : String) : SearchIntent :=
  extract_search_intent env.decodeJson env.llmIntentReply user_message

/-- The retrieval step of `ProductRecommendationChatbot.chat` (lines 228-247):
the `if`/`elif` dispatch over the extracted intent onto the four
`ProductVectorStore` search entry points. -/
def chatProducts (env : ChatEnv) (user_message : String) : List Product :=
  let intent := intentOf env user_message
  if truthyStr intent.category then
    search_by_category env.embedCall env.indexCall (intent.category.getD "")
      intent.search_query
  else if truthyStr intent.brand then
    search_by_brand env.embedCall env.indexCall (intent.brand.getD "")
      intent.search_query
  else if intent.min_price.isSome && intent.max_price.isSome then
    search_by_price_range env.embedCall env.indexCall (intent.min_price.getD 0)
      (intent.max_price.getD 0) intent.search_query
  else
    search_products env.embedCall env.indexCall intent.search_query

/-- `ProductRecommendationChatbot.chat`: extract the intent, retrieve, and
compose — the fixed clarification when nothing was retrieved, otherwise the
contextual response. -/
def chat (env : ChatEnv) (user_message : String) : String :=
  let products := chatProducts env user_message
  if products.isEmpty then clarificationMsg
  else generate_contextual_response env.composeCall products

/-- Spec-side (from the specification's words, for comparison with the code):
the single-dimension retrieval filter chosen by priority — category, then
brand, then the price range when both bounds are present, then none. -/
def retrievalFilter (intent : SearchIntent) : FilterDict :=
  if truthyStr intent.category then FilterDict.category (intent.category.getD "")
  else if truthyStr intent.brand then FilterDict.brand (intent.brand.getD "")
  else if intent.min_price.isSome && intent.max_price.isSome then
    FilterDict.price (intent.min_price.getD 0) (intent.max_price.getD 0)
  else FilterDict.noFilter

/-- Spec-side: the fixed ordered keyword-to-category rule list of the
intent-extraction fallback, as the specification states it. -/
def keywordRules : List (List String × String) :=
  [(["phone", "smartphone", "iphone", "android"], "phone"),
   (["laptop", "computer", "macbook", "notebook"], "laptop"),
   (["tablet", "ipad"], "tablet")]

/-- Spec-side: apply the keyword rules to a text, first matching rule wins,
no match leaves the category unset. -/
def firstMatchingRule (text : String) : Option String :=
  (keywordRules.find? (fun rule => rule.1.any (fun word => pyIn word (lowerStr text)))).map
    (fun rule => rule.2)

/-- Spec-side (from the specification's words, for comparison with the
transcribed formatter): one numbered entry of the templated listing — name and
price, brand, description, then the `screen_size`/`storage`/`processor` spec
fields in that fixed order omitting absent ones, then the first three features
joined by commas, then the similarity score to two decimal places defaulting
to 0 when absent. -/
def renderEntrySpec (i : Nat) (product : Product) : String :=
  "**" ++ toString i ++ ". " ++ product.name ++ "** ($" ++ toString product.price ++ ")\n" ++
  ("   Brand: " ++ product.brand ++ "\n") ++
  ("   Description: " ++ product.description ++ "\n") ++
  ((lookupSpec "screen_size" product.specs).elim "" (fun v => "   Screen: " ++ v ++ "\n")) ++
  ((lookupSpec "storage" product.specs).elim "" (fun v => "   Storage: " ++ v ++ "\n")) ++
  ((lookupSpec "processor" product.specs).elim "" (fun v => "   Processor: " ++ v ++ "\n")) ++
  (if product.features.isEmpty then ""
   else "   Key Features: " ++ String.intercalate ", " (product.features.take 3) ++ "\n") ++
  ("   Match Score: " ++ formatFixed2 (product.similarity_score.getD 0) ++ "\n\n")

/-- Catalog entry `phone_001` of `src/data/products.py`. -/
def phone_001 : Product :=
  { id := "phone_001"
    name := "iPhone 15 Pro"
    category := "phone"
    brand := "Apple"
    price := 999
    description := "Latest iPhone with A17 Pro chip, titanium design, and advanced camera system"
    specs := [("screen_size", "6.1 inches"), ("storage", "128GB"), ("ram", "8GB"),
      ("processor", "A17 Pro"), ("camera", "48MP main + 12MP ultra-wide + 12MP telephoto"),
      ("battery", "3274mAh"), ("os", "iOS 17")]
    features := ["5G", "Face ID", "Wireless charging", "Water resistant", "Titanium frame"]
    tags := ["premium", "camera", "gaming", "business", "photography"]
    similarity_score := none }

/-- Catalog entry `phone_002`. -/
def phone_002 : Product :=
  { id := "phone_002"
    name := "Samsung Galaxy S24 Ultra"
    category := "phone"
    brand := "Samsung"
    price := 1299
    description := "Premium Android flagship with S Pen, advanced AI features, and exceptional camera"
    specs := [("screen_size", "6.8 inches"), ("storage", "256GB"), ("ram", "12GB"),
      ("processor", "Snapdragon 8 Gen 3"),
      ("camera", "200MP main + 12MP ultra-wide + 50MP telephoto + 10MP telephoto"),
      ("battery", "5000mAh"), ("os", "Android 14")]
    features := ["5G", "S Pen", "Wireless charging", "Water resistant", "AI features"]
    tags := ["premium", "camera", "productivity", "business", "creativity"]
    similarity_score := none }

/-- Catalog entry `phone_003`. -/
def phone_003 : Product :=
  { id := "phone_003"
    name := "Google Pixel 8"
    category := "phone"
    brand := "Google"
    price := 699
    description := "AI-powered smartphone with exceptional camera and clean Android experience"
    specs := [("screen_size", "6.2 inches"), ("storage", "128GB"), ("ram", "8GB"),
      ("processor", "Google Tensor G3"), ("camera", "50MP main + 12MP ultra-wide"),
      ("battery", "4575mAh"), ("os", "Android 14")]
    features := ["5G", "AI camera", "Wireless charging", "Water resistant", "Google Assistant"]
    tags := ["camera", "AI", "mid-range", "photography", "clean UI"]
    similarity_score := none }

/-- Catalog entry `phone_004`. -/
def phone_004 : Product :=
  { id := "phone_004"
    name := "OnePlus 12"
    category := "phone"
    brand := "OnePlus"
    price := 799
    description := "Fast performance with Hasselblad camera system and rapid charging"
    specs := [("screen_size", "6.82 inches"), ("storage", "256GB"), ("ram", "16GB"),
      ("processor", "Snapdragon 8 Gen 3"),
      ("camera", "50MP main + 48MP ultra-wide + 64MP telephoto"),
      ("battery", "5400mAh"), ("os", "Android 14")]
    features := ["5G", "100W charging", "Wireless charging", "Water resistant", "Hasselblad camera"]
    tags := ["performance", "fast charging", "camera", "gaming", "value"]
    similarity_score := none }

/-- Catalog entry `laptop_001`. -/
def laptop_001 : Product :=
  { id := "laptop_001"
    name := "MacBook Pro 14-inch"
    category := "laptop"
    brand := "Apple"
    price := 1999
    description := "Professional laptop with M3 Pro chip, perfect for creative work and development"
    specs := [("screen_size", "14.2 inches"), ("storage", "512GB SSD"), ("ram", "18GB"),
      ("processor", "M3 Pro"), ("gpu", "Integrated"), ("battery", "Up to 22 hours"),
      ("os", "macOS Sonoma")]
    features := ["Retina display", "Touch Bar", "Thunderbolt 4", "Backlit keyboard",
      "Force Touch trackpad"]
    tags := ["premium", "creative", "development", "business", "portable"]
    similarity_score := none }

/-- Catalog entry `laptop_002`. -/
def laptop_002 : Product :=
  { id := "laptop_002"
    name := "Dell XPS 13 Plus"
    category := "laptop"
    brand := "Dell"
    price := 1499
    description := "Ultra-slim premium Windows laptop with excellent performance and design"
    specs := [("screen_size", "13.4 inches"), ("storage", "512GB SSD"), ("ram", "16GB"),
      ("processor", "Intel Core i7-1360P"), ("gpu", "Intel Iris Xe"),
      ("battery", "Up to 12 hours"), ("os", "Windows 11")]
    features := ["InfinityEdge display", "Backlit keyboard", "Thunderbolt 4",
      "Fingerprint reader", "Premium build"]
    tags := ["premium", "business", "portable", "design", "professional"]
    similarity_score := none }

/-- Catalog entry `laptop_003`. -/
def laptop_003 : Product :=
  { id := "laptop_003"
    name := "Lenovo ThinkPad X1 Carbon"
    category := "laptop"
    brand := "Lenovo"
    price := 1699
    description := "Business-focused laptop with legendary ThinkPad reliability and security"
    specs := [("screen_size", "14 inches"), ("storage", "1TB SSD"), ("ram", "16GB"),
      ("processor", "Intel Core i7-1355U"), ("gpu", "Intel Iris Xe"),
      ("battery", "Up to 15 hours"), ("os", "Windows 11 Pro")]
    features := ["ThinkPad keyboard", "Fingerprint reader", "IR camera", "Thunderbolt 4",
      "Military-grade durability"]
    tags := ["business", "reliable", "security", "professional", "durable"]
    similarity_score := none }

/-- Catalog entry `laptop_004`. -/
def laptop_004 : Product :=
  { id := "laptop_004"
    name := "ASUS ROG Zephyrus G14"
    category := "laptop"
    brand := "ASUS"
    price := 1299
    description := "Gaming laptop with AMD Ryzen processor and dedicated graphics for gaming and content creation"
    specs := [("screen_size", "14 inches"), ("storage", "512GB SSD"), ("ram", "16GB"),
      ("processor", "AMD Ryzen 7 7735HS"), ("gpu", "NVIDIA RTX 4050"),
      ("battery", "Up to 8 hours"), ("os", "Windows 11")]
    features := ["144Hz display", "RGB keyboard", "Gaming performance", "Anime Matrix",
      "Portable gaming"]
    tags := ["gaming", "performance", "content creation", "portable", "RGB"]
    similarity_score := none }

/-- Catalog entry `tablet_001`. -/
def tablet_001 : Product :=
  { id := "tablet_001"
    name := "iPad Pro 12.9-inch"
    category := "tablet"
    brand := "Apple"
    price := 1099
    description := "Professional tablet with M2 chip, perfect for creative work and productivity"
    specs := [("screen_size", "12.9 inches"), ("storage", "128GB"), ("ram", "8GB"),
      ("processor", "M2"), ("camera", "12MP wide + 10MP ultra-wide"),
      ("battery", "Up to 10 hours"), ("os", "iPadOS 17")]
    features := ["Liquid Retina XDR display", "Apple Pencil support", "Magic Keyboard",
      "5G optional", "Face ID"]
    tags := ["premium", "creative", "productivity", "professional", "large screen"]
    similarity_score := none }

/-- Catalog entry `tablet_002`. -/
def tablet_002 : Product :=
  { id := "tablet_002"
    name := "Samsung Galaxy Tab S9 Ultra"
    category := "tablet"
    brand := "Samsung"
    price := 1199
    description := "Large Android tablet with S Pen and exceptional multimedia experience"
    specs := [("screen_size", "14.6 inches"), ("storage", "256GB"), ("ram", "12GB"),
      ("processor", "Snapdragon 8 Gen 2"), ("camera", "13MP + 8MP dual"),
      ("battery", "11200mAh"), ("os", "Android 13")]
    features := ["AMOLED display", "S Pen included", "5G optional", "Multi-window", "DeX mode"]
    tags := ["large screen", "multimedia", "productivity", "S Pen", "entertainment"]
    similarity_score := none }

/-- Catalog entry `tablet_003`. -/
def tablet_003 : Product :=
  { id := "tablet_003"
    name := "Microsoft Surface Pro 9"
    category := "tablet"
    brand := "Microsoft"
    price := 999
    description := "2-in-1 tablet that transforms into a laptop with full Windows experience"
    specs := [("screen_size", "13 inches"), ("storage", "256GB SSD"), ("ram", "16GB"),
      ("processor", "Intel Core i5-1235U"), ("camera", "10MP rear + 5MP front"),
      ("battery", "Up to 15.5 hours"), ("os", "Windows 11")]
    features := ["2-in-1 design", "Surface Pen", "Type Cover", "Kickstand", "Full Windows"]
    tags := ["2-in-1", "productivity", "business", "versatile", "Windows"]
    similarity_score := none }

/-- Catalog entry `tablet_004`. -/
def tablet_004 : Product :=
  { id := "tablet_004"
    name := "Amazon Fire HD 10"
    category := "tablet"
    brand := "Amazon"
    price := 149
    description := "Affordable tablet perfect for entertainment, reading, and basic tasks"
    specs := [("screen_size", "10.1 inches"), ("storage", "32GB"), ("ram", "3GB"),
      ("processor", "Octa-core"), ("camera", "5MP rear + 2MP front"),
      ("battery", "Up to 12 hours"), ("os", "Fire OS")]
    features := ["HD display", "Alexa integration", "Expandable storage", "Kid-friendly",
      "Affordable"]
    tags := ["budget", "entertainment", "reading", "kids", "value"]
    similarity_score := none }

/-- The static catalog `PRODUCTS` of `src/data/products.py`, in source order. -/
def PRODUCTS : List Product :=
  [phone_001, phone_002, phone_003, phone_004,
   laptop_001, laptop_002, laptop_003, laptop_004,
   tablet_001, tablet_002, tablet_003, tablet_004]

/-- `get_products_by_category` (`src/data/products.py`): with a truthy
category argument, the products whose `category` field equals it; with `None`
(the default) or any other falsy argument, the whole catalog. -/
def get_products_by_category (category : Option String := none) : List Product :=
  if truthyStr category then
    PRODUCTS.filter (fun product => product.category == category.getD "")
  else PRODUCTS

/-- Support: a trivially succeeding embedding oracle. -/
def wEmbedOk : String → Option (List Int) := fun _ => some [1]

/-- Support: an embedding oracle whose call succeeds but returns an empty vector. -/
def wEmbedEmpty : String → Option (List Int) := fun _ => some []

/-- Support: an embedding oracle whose call raises. -/
def wEmbedRaise : String → Option (List Int) := fun _ => none

/-- Support: an index oracle returning no matches. -/
def wIndexEmpty : FilterDict → Nat → Option (List QueryMatch) := fun _ _ => some []

/-- Support: an index oracle whose query raises. -/
def wIndexRaise : FilterDict → Nat → Option (List QueryMatch) := fun _ _ => none

/-- Support: one concrete index match. -/
def wMatch : QueryMatch := { metadata := tablet_004, score := 87 }

/-- Support: an index oracle returning one match. -/
def wIndexOne : FilterDict → Nat → Option (List QueryMatch) := fun _ _ => some [wMatch]

/-- Support: a `json.loads` oracle that always fails to decode. -/
def wDecodeFail : String → Option SearchIntent := fun _ => none

/-- Support: a chat environment in which every call succeeds but the index
finds nothing (the intent-extraction model call raises, so the intent is the
raw-message fallback). -/
def wEnvC3 : ChatEnv :=
  { decodeJson := wDecodeFail, llmIntentReply := none, embedCall := wEmbedOk,
    indexCall := wIndexEmpty, composeCall := none }

/-- Support: a chat environment in which the embedding client raises; the
index would have matches and the composer would answer, but neither is
reached. -/
def wEnvC5 : ChatEnv :=
  { decodeJson := wDecodeFail, llmIntentReply := none, embedCall := wEmbedRaise,
    indexCall := wIndexOne, composeCall := some "model reply" }

/-- Support: an intent with both a category and a brand set. -/
def wIntentBoth : SearchIntent :=
  { category := some "laptop", min_price := none, max_price := none,
    brand := some "Apple", features := [], search_query := "work laptop" }

/-- Support: the spec-side rendering of one (rank, product) pair. -/
def renderEntryPair (ip : Nat × Product) : String :=
  renderEntrySpec ip.1 ip.2

/-- Support: the upsert record built for a product whose embedding succeeded. -/
def successRecord (embedCall : String → Option (List Int)) (p : Product) : UpsertRecord :=
  { id := p.id, embedding := generate_embedding (embedCall (create_product_text p)),
    metadata := p }

/-- Support: whether a product\x27s embedding call produced a non-empty vector. -/
def embedSucceeds (embedCall : String → Option (List Int)) (p : Product) : Bool :=
  !(generate_embedding (embedCall (create_product_text p))).isEmpty

/-- Support: a synthetic catalog of 250 distinct products. -/
def mkSimpleProduct (n : Nat) : Product :=
  { id := "p" ++ toString n, name := "P", category := "phone", brand := "B",
    price := 1, description := "D", specs := [], features := [], tags := [],
    similarity_score := none }

/-- Support: the 250-product catalog used to exercise upsert batching. -/
def wCatalog250 : List Product := (List.range 250).map mkSimpleProduct

/-- Support: a product whose embedding call will succeed. -/
def wGoodProduct : Product :=
  { id := "good_001", name := "GOOD", category := "phone", brand := "B",
    price := 1, description := "D", specs := [], features := [], tags := [],
    similarity_score := none }

/-- Support: a product whose embedding call will raise. -/
def wBadProduct : Product :=
  { id := "bad_001", name := "BAD", category := "phone", brand := "B",
    price := 1, description := "D", specs := [], features := [], tags := [],
    similarity_score := none }

/-- Support: an embedding oracle that raises exactly on the bad product\x27s text. -/
def wEmbedC10 : String → Option (List Int) :=
  fun text => if pyIn "BAD" text then none else some [2]

/-- Support: the two-product catalog with one failing embedding. -/
def wProductsC10 : List Product := [wGoodProduct, wBadProduct]

/-- Support: the record upserted for the good product. -/
def wGoodRec : UpsertRecord :=
  { id := "good_001", embedding := [2], metadata := wGoodProduct }

/-- Support: four synthetic products for exercising the templated formatter. -/
def wP1 : Product :=
  { id := "w1", name := "Alpha", category := "phone", brand := "BrandA", price := 10,
    description := "da",
    specs := [("screen_size", "5 in"), ("storage", "64GB"), ("processor", "X1")],
    features := ["f1", "f2", "f3", "f4"], tags := [], similarity_score := some 87 }

/-- Support: second synthetic product (no optional parts at all). -/
def wP2 : Product :=
  { id := "w2", name := "Beta", category := "laptop", brand := "BrandB", price := 20,
    description := "db", specs := [("ram", "8GB")], features := [], tags := [],
    similarity_score := none }

/-- Support: third synthetic product (one spec field, one feature). -/
def wP3 : Product :=
  { id := "w3", name := "Gamma", category := "tablet", brand := "BrandC", price := 30,
    description := "dc", specs := [("storage", "32GB")], features := ["only"],
    tags := [], similarity_score := some 5 }

/-- Support: fourth synthetic product (beyond the top-3 cut). -/
def wP4 : Product :=
  { id := "w4", name := "Delta", category := "phone", brand := "BrandD", price := 40,
    description := "dd", specs := [], features := ["x"], tags := [],
    similarity_score := some 200 }

/-- Support: the four-product list handed to the formatter. -/
def wListC6 : List Product := [wP1, wP2, wP3, wP4]

theorem subSearch_iff (needle haystack : List Char) :
    subSearch needle haystack = true ↔ needle <:+: haystack := by
  induction haystack with
  | nil =>
    simp [subSearch, List.isPrefixOf_iff_prefix, List.prefix_nil, List.infix_nil]
  | cons c rest ih =>
    simp [subSearch, List.isPrefixOf_iff_prefix, ih, List.infix_cons_iff]

theorem pyIn_trans_of_sub {pat1 pat2 s : String}
    (hsub : subSearch pat1.data pat2.data = true) (h : pyIn pat2 s = true) :
    pyIn pat1 s = true := by
  unfold pyIn at h ⊢
  exact (subSearch_iff pat1.data s.data).mpr
    (((subSearch_iff pat1.data pat2.data).mp hsub).trans
      ((subSearch_iff pat2.data s.data).mp h))

theorem fallbackCategory_eq_firstMatchingRule (response : String) :
    fallbackCategory response = firstMatchingRule response := by
  have key : pyIn "android tablet" (lowerStr response) = true →
      pyIn "tablet" (lowerStr response) = true := fun h =>
    pyIn_trans_of_sub (by decide) h
  have hc3 : (["tablet", "ipad", "android tablet"].any
        (fun word => pyIn word (lowerStr response)))
      = (["tablet", "ipad"].any (fun word => pyIn word (lowerStr response))) := by
    simp only [List.any_cons, List.any_nil, Bool.or_false]
    cases h9 : pyIn "tablet" (lowerStr response)
    · cases h11 : pyIn "android tablet" (lowerStr response)
      · simp
      · exact absurd (key h11) (by simp [h9])
    · simp
  unfold fallbackCategory firstMatchingRule keywordRules
  rw [hc3]
  by_cases hc1 : (["phone", "smartphone", "iphone", "android"].any
      (fun word => pyIn word (lowerStr response))) = true
  · simp [List.find?, hc1]
  · by_cases hc2 : (["laptop", "computer", "macbook", "notebook"].any
        (fun word => pyIn word (lowerStr response))) = true
    · simp [List.find?, hc1, hc2]
    · by_cases hc3b : (["tablet", "ipad"].any
          (fun word => pyIn word (lowerStr response))) = true
      · simp [List.find?, hc1, hc2, hc3b]
      · simp [List.find?, hc1, hc2, hc3b]

theorem strJoin_cons (s : String) (l : List String) :
    String.join (s :: l) = s ++ String.join l := by
  have aux : ∀ (l : List String) (a b : String),
      List.foldl (fun r t => r ++ t) (a ++ b) l =
        a ++ List.foldl (fun r t => r ++ t) b l := by
    intro l
    induction l with
    | nil => intro a b; rfl
    | cons x xs ih =>
      intro a b
      simp only [List.foldl_cons, String.append_assoc]
      exact ih a (b ++ x)
  show List.foldl (fun r t => r ++ t) ("" ++ s) l =
    s ++ List.foldl (fun r t => r ++ t) "" l
  rw [show ("" ++ s : String) = s ++ "" by simp, aux]

theorem renderEntrySpec_eq_renderProduct (i : Nat) (p : Product) :
    renderEntrySpec i p = renderProduct i p := by
  unfold renderEntrySpec renderProduct
  cases h1 : lookupSpec "screen_size" p.specs <;>
  cases h2 : lookupSpec "storage" p.specs <;>
  cases h3 : lookupSpec "processor" p.specs <;>
  cases h4 : p.features.isEmpty <;>
  simp only [h1, h2, h3, h4, Option.elim_none, Option.elim_some, Bool.false_eq_true,
    if_false, if_true, String.append_empty, String.empty_append, String.append_assoc]

theorem renderLoop_eq_join : ∀ (l : List Product) (acc : String) (i : Nat),
    renderLoop acc i l = acc ++ String.join ((List.enumFrom i l).map renderEntryPair) := by
  intro l
  induction l with
  | nil => intro acc i; simp [renderLoop, List.enumFrom, String.join]
  | cons p rest ih =>
    intro acc i
    show renderLoop (acc ++ renderProduct i p) (i + 1) rest = _
    rw [ih]
    simp only [List.enumFrom, List.map_cons, strJoin_cons, String.append_assoc]
    rw [show renderEntryPair (i, p) = renderProduct i p from
      renderEntrySpec_eq_renderProduct i p]

theorem upsertLoop_join : ∀ (fuel : Nat) (v : List UpsertRecord), v.length ≤ fuel →
    (upsertLoop fuel v).flatten = v := by
  intro fuel
  induction fuel with
  | zero =>
    intro v hv
    cases v with
    | nil => rfl
    | cons a l => simp at hv
  | succ f ih =>
    intro v hv
    cases v with
    | nil => rfl
    | cons a l =>
      show ((a :: l).take 100 ++ (upsertLoop f ((a :: l).drop 100)).flatten : List UpsertRecord) = a :: l
      rw [ih ((a :: l).drop 100) (by simp at hv ⊢; omega)]
      exact List.take_append_drop 100 (a :: l)

theorem upsertLoop_le100 : ∀ (fuel : Nat) (v : List UpsertRecord), v.length ≤ fuel →
    ∀ b ∈ upsertLoop fuel v, b.length ≤ 100 := by
  intro fuel
  induction fuel with
  | zero =>
    intro v hv b hb
    cases v with
    | nil => simp [upsertLoop] at hb
    | cons a l => simp at hv
  | succ f ih =>
    intro v hv b hb
    cases v with
    | nil => simp [upsertLoop] at hb
    | cons a l =>
      have hb2 : b = (a :: l).take 100 ∨ b ∈ upsertLoop f ((a :: l).drop 100) :=
        List.mem_cons.mp hb
      rcases hb2 with hb2 | hb2
      · rw [hb2]; simp [List.length_take]
      · exact ih ((a :: l).drop 100) (by simp at hv ⊢; omega) b hb2

theorem upsertLoop_step (fuel : Nat) (v : List UpsertRecord) (hv : v ≠ []) :
    upsertLoop (fuel + 1) v = v.take 100 :: upsertLoop fuel (v.drop 100) := by
  cases v with
  | nil => exact absurd rfl hv
  | cons a l => rfl

theorem upsertBatches_250 (v : List UpsertRecord) (h : v.length = 250) :
    (upsertBatches v).map List.length = [100, 100, 50] := by
  have h1 : v ≠ [] := by intro hv; rw [hv] at h; simp at h
  have e0 : upsertBatches v = upsertLoop 250 v := by unfold upsertBatches; rw [h]
  have hd1 : (v.drop 100).length = 150 := by simp [h]
  have h2 : v.drop 100 ≠ [] := by
    intro hv; rw [hv] at hd1; simp at hd1
  have hd2 : ((v.drop 100).drop 100).length = 50 := by simp [h]
  have h3 : (v.drop 100).drop 100 ≠ [] := by
    intro hv; rw [hv] at hd2; simp at hd2
  have hd3 : ((v.drop 100).drop 100).drop 100 = [] := by
    apply List.eq_nil_of_length_eq_zero; simp [h]
  rw [e0, show (250 : Nat) = 249 + 1 from rfl, upsertLoop_step 249 v h1,
    show (249 : Nat) = 248 + 1 from rfl, upsertLoop_step 248 _ h2,
    show (248 : Nat) = 247 + 1 from rfl, upsertLoop_step 247 _ h3, hd3]
  show [(v.take 100).length, ((v.drop 100).take 100).length,
    (((v.drop 100).drop 100).take 100).length] = [100, 100, 50]
  simp [List.length_take, h, hd1, hd2]

theorem buildVectors_all_success (embedCall : String → Option (List Int))
    (products : List Product)
    (h : ∀ p ∈ products,
      (generate_embedding (embedCall (create_product_text p))).isEmpty = false) :
    buildVectors embedCall products = products.map (successRecord embedCall) := by
  induction products with
  | nil => rfl
  | cons p rest ih =>
    have hp := h p (by simp)
    have hrest : ∀ q ∈ rest,
        (generate_embedding (embedCall (create_product_text q))).isEmpty = false :=
      fun q hq => h q (by simp [hq])
    simp only [buildVectors, List.filterMap_cons] at ih ⊢
    rw [hp]
    simp only [Bool.false_eq_true, if_false, List.map_cons]
    rw [ih hrest]
    rfl

theorem buildVectors_length (embedCall : String → Option (List Int))
    (products : List Product) :
    (buildVectors embedCall products).length = products.countP (embedSucceeds embedCall) := by
  induction products with
  | nil => rfl
  | cons p rest ih =>
    simp only [buildVectors, List.filterMap_cons, List.countP_cons, embedSucceeds] at ih ⊢
    by_cases hp : (generate_embedding (embedCall (create_product_text p))).isEmpty = true
    · rw [if_pos hp]
      simp only [hp, Bool.not_true, Bool.false_eq_true, if_false, Nat.add_zero]
      exact ih
    · have hp2 : (generate_embedding (embedCall (create_product_text p))).isEmpty = false := by
        simpa using hp
      rw [if_neg hp]
      simp only [hp2, Bool.not_false, if_true, List.length_cons]
      rw [ih]

theorem mem_buildVectors {embedCall : String → Option (List Int)}
    {products : List Product} {r : UpsertRecord}
    (hr : r ∈ buildVectors embedCall products) :
    ∃ p ∈ products,
      (generate_embedding (embedCall (create_product_text p))).isEmpty = false ∧
      r.metadata = p := by
  rcases List.mem_filterMap.mp hr with ⟨p, hp, hfp⟩
  refine ⟨p, hp, ?_, ?_⟩
  · by_contra hne
    have : (generate_embedding (embedCall (create_product_text p))).isEmpty = true := by
      cases hh : (generate_embedding (embedCall (create_product_text p))).isEmpty
      · exact absurd hh hne
      · rfl
    simp only [this, if_true] at hfp
    exact Option.noConfusion hfp
  · cases hh : (generate_embedding (embedCall (create_product_text p))).isEmpty
    · simp only [hh, Bool.false_eq_true, if_false] at hfp
      cases hfp
      rfl
    · simp only [hh, if_true] at hfp
      exact Option.noConfusion hfp

theorem chatProducts_eq (env : ChatEnv) (msg : String) :
    chatProducts env msg =
      search_products env.embedCall env.indexCall (intentOf env msg).search_query 5
        (retrievalFilter (intentOf env msg)) := by
  simp only [chatProducts, retrievalFilter, search_by_category, search_by_brand,
    search_by_price_range]
  split_ifs <;> rfl

/-- C4, counterexample: the templated formatter applied to the empty product
list does not enumerate the four clarifying questions — its fixed message
mentions neither a device type, nor a budget, nor features, nor a brand. -/
theorem formatTemplated_empty_missing_clues :
    pyIn "device" (format_product_recommendations []) = false ∧
    pyIn "budget" (format_product_recommendations []) = false ∧
    pyIn "feature" (format_product_recommendations []) = false ∧
    pyIn "brand" (format_product_recommendations []) = false := by decide

/-- C4, amended: for every call of the templated formatter with an empty
product list (the formatter is a pure function, so prior state cannot affect
it), it returns the fixed short "nothing found, please provide more details"
message — without the four-question enumeration, which appears only in
`chat`\x27s own empty-retrieval clarification. -/
theorem formatTemplated_empty_fixed_message :
    format_product_recommendations [] =
      "I couldn\x27t find any products matching your requirements. Could you please provide more details about what you\x27re looking for?" :=
  rfl

/-- C9, counterexample: for the (falsy) category argument `""`,
`get_products_by_category` returns the entire 12-product catalog rather than
the empty list, although no product\x27s category equals `""`. -/
theorem byCategory_falsy_cex :
    (get_products_by_category (some "")).length = 12 ∧
    (PRODUCTS.filter (fun p => p.category == "")).length = 0 := by decide

/-- C9, amended: for every non-empty category argument,
`get_products_by_category` returns exactly the catalog products whose
`category` equals the argument (empty when none matches); every catalog
product appears in the result for its own category and in no other non-empty
category\x27s result; and a `None` or empty-string argument returns the whole
catalog unfiltered. -/
theorem byCategory_spec :
    (∀ c : String, c ≠ "" → ∀ p : Product,
      (p ∈ get_products_by_category (some c) ↔ p ∈ PRODUCTS ∧ p.category = c)) ∧
    (∀ c : String, c ≠ "" → (∀ p ∈ PRODUCTS, p.category ≠ c) →
      get_products_by_category (some c) = []) ∧
    (∀ p ∈ PRODUCTS, p ∈ get_products_by_category (some p.category) ∧
      ∀ c : String, c ≠ "" → c ≠ p.category → p ∉ get_products_by_category (some c)) ∧
    get_products_by_category none = PRODUCTS ∧
    get_products_by_category (some "") = PRODUCTS := by
  have hmem : ∀ c : String, c ≠ "" → ∀ p : Product,
      (p ∈ get_products_by_category (some c) ↔ p ∈ PRODUCTS ∧ p.category = c) := by
    intro c hc p
    unfold get_products_by_category
    have ht : truthyStr (some c) = true := by simp [truthyStr, hc]
    rw [if_pos ht]
    simp [List.mem_filter]
  refine ⟨hmem, ?_, ?_, rfl, rfl⟩
  · intro c hc hnone
    unfold get_products_by_category
    have ht : truthyStr (some c) = true := by simp [truthyStr, hc]
    rw [if_pos ht]
    refine List.filter_eq_nil_iff.mpr ?_
    intro a ha
    simp only [Option.getD_some, beq_iff_eq]
    exact hnone a ha
  · intro p hp
    have hcats : ∀ q ∈ PRODUCTS, q.category ≠ "" := by decide
    have hcat := hcats p hp
    constructor
    · exact (hmem p.category hcat p).mpr ⟨hp, rfl⟩
    · intro c hc hne hmem2
      exact hne (((hmem c hc p).mp hmem2).2.symm)

/-- C9, witness: the first catalog phone is in the `"phone"` filter result and
not in the `"laptop"` one. -/
theorem byCategory_spec_witness :
    phone_001 ∈ get_products_by_category (some "phone") ∧
    phone_001 ∉ get_products_by_category (some "laptop") := by
  have h := byCategory_spec.2.2.1 phone_001 (by decide)
  exact ⟨h.1, h.2 "laptop" (by decide) (by decide)⟩

/-- C7: error neutrality of `search_products` — when the query embedding comes
back empty the function returns `[]` and its result does not depend on the
index oracle (the index query is never consulted); and when the index call
raises, the function returns `[]` instead of raising. -/
theorem search_products_error_neutral :
    (∀ (embedCall : String → Option (List Int))
       (indexCall indexCall2 : FilterDict → Nat → Option (List QueryMatch))
       (query : String) (top_k : Nat) (fd : FilterDict),
       generate_embedding (embedCall query) = [] →
       search_products embedCall indexCall query top_k fd = [] ∧
       search_products embedCall indexCall query top_k fd =
         search_products embedCall indexCall2 query top_k fd) ∧
    (∀ (embedCall : String → Option (List Int))
       (indexCall : FilterDict → Nat → Option (List QueryMatch))
       (query : String) (top_k : Nat) (fd : FilterDict),
       indexCall fd top_k = none →
       search_products embedCall indexCall query top_k fd = []) := by
  constructor
  · intro e i1 i2 q t fd h
    constructor
    · simp [search_products, h]
    · simp [search_products, h]
  · intro e i q t fd h
    unfold search_products
    simp only [h]
    split <;> rfl

/-- C7, witness: with an embedding call returning the empty vector the search
returns `[]` whatever the index does, and with a raising index call it also
returns `[]`. -/
theorem search_products_error_neutral_witness :
    generate_embedding (wEmbedEmpty "q") = [] ∧
    search_products wEmbedEmpty wIndexOne "q" = [] ∧
    search_products wEmbedEmpty wIndexOne "q" =
      search_products wEmbedEmpty wIndexRaise "q" ∧
    wIndexRaise FilterDict.noFilter 5 = none ∧
    search_products wEmbedOk wIndexRaise "q" = [] := by
  have h1 := search_products_error_neutral.1 wEmbedEmpty wIndexOne wIndexRaise
    "q" 5 FilterDict.noFilter rfl
  have h2 := search_products_error_neutral.2 wEmbedOk wIndexRaise
    "q" 5 FilterDict.noFilter rfl
  exact ⟨rfl, h1.1, h1.2, rfl, h2⟩

/-- C10 (implicit): during index population every product whose embedding call
fails is silently omitted — the upserted records are exactly the successful
ones, no error is raised (the function is total), the reported count equals
the number of products whose embedding succeeded, and no record for a failed
product is ever upserted. -/
theorem populate_index_omits_failures :
    ∀ (embedCall : String → Option (List Int)) (products : List Product),
      (populate_index embedCall products).1.flatten = buildVectors embedCall products ∧
      (populate_index embedCall products).2 = (buildVectors embedCall products).length ∧
      (populate_index embedCall products).2 = products.countP (embedSucceeds embedCall) ∧
      (∀ p ∈ products,
        (generate_embedding (embedCall (create_product_text p))).isEmpty = true →
        ∀ r ∈ (populate_index embedCall products).1.flatten, r.metadata ≠ p) := by
  intro e ps
  have hjoin : (populate_index e ps).1.flatten = buildVectors e ps :=
    upsertLoop_join _ _ le_rfl
  refine ⟨hjoin, rfl, buildVectors_length e ps, ?_⟩
  intro p hp hfail r hr hmeta
  rw [hjoin] at hr
  rcases mem_buildVectors hr with ⟨q, _, hqs, hqm⟩
  have hqp : q = p := by rw [← hqm, hmeta]
  rw [hqp, hfail] at hqs
  exact Bool.noConfusion hqs

/-- C10, witness: with one succeeding and one failing product, the reported
count is 1 and the upserted record is not the failed product\x27s. -/
theorem populate_index_omits_failures_witness :
    (populate_index wEmbedC10 wProductsC10).2 = 1 ∧
    wGoodRec.metadata ≠ wBadProduct := by
  have h := populate_index_omits_failures wEmbedC10 wProductsC10
  constructor
  · rw [h.2.2.1]; decide
  · exact h.2.2.2 wBadProduct (by decide) (by decide) wGoodRec (by decide)

/-- C8: upserts are issued in batches of at most 100 records; and populating a
catalog of 250 products all of whose embeddings succeed issues exactly 3
batched upsert calls of sizes 100, 100 and 50 whose concatenation is exactly
the 250 records in catalog order. -/
theorem populate_index_batching :
    (∀ (embedCall : String → Option (List Int)) (products : List Product),
      ∀ b ∈ (populate_index embedCall products).1, b.length ≤ 100) ∧
    (∀ (embedCall : String → Option (List Int)) (products : List Product),
      products.length = 250 →
      (∀ p ∈ products,
        (generate_embedding (embedCall (create_product_text p))).isEmpty = false) →
      (populate_index embedCall products).1.map List.length = [100, 100, 50] ∧
      (populate_index embedCall products).1.flatten =
        products.map (successRecord embedCall)) := by
  constructor
  · intro e ps b hb
    exact upsertLoop_le100 _ _ le_rfl b hb
  · intro e ps h250 hall
    have hbv := buildVectors_all_success e ps hall
    have hlen : (buildVectors e ps).length = 250 := by rw [hbv]; simp [h250]
    constructor
    · exact upsertBatches_250 (buildVectors e ps) hlen
    · rw [show (populate_index e ps).1.flatten = buildVectors e ps from
        upsertLoop_join _ _ le_rfl, hbv]

/-- C8, witness: the concrete 250-product catalog with an always-succeeding
embedding oracle yields exactly the batch sizes 100, 100, 50. -/
theorem populate_index_batching_witness :
    wCatalog250.length = 250 ∧
    (populate_index wEmbedOk wCatalog250).1.map List.length = [100, 100, 50] := by
  have hall : ∀ p ∈ wCatalog250,
      (generate_embedding (wEmbedOk (create_product_text p))).isEmpty = false := by
    intro p _
    rfl
  exact ⟨by simp [wCatalog250],
    (populate_index_batching.2 wEmbedOk wCatalog250 (by simp [wCatalog250]) hall).1⟩

/-- C1, counterexample: when the model reply cannot be decoded, the fallback
keyword rules are applied to the model reply and `search_query` is set to the
model reply — not to the raw user message. Here the user message contains
"laptop" but the undecodable reply contains "phone", and the resulting
category is `phone`, not `laptop`, with `search_query` different from the
user message. -/
theorem extract_intent_fallback_cex :
    pyIn "laptop" (lowerStr "please recommend a laptop") = true ∧
    (extract_search_intent wDecodeFail (some "i do not understand this phone question")
      "please recommend a laptop").category = some "phone" ∧
    (extract_search_intent wDecodeFail (some "i do not understand this phone question")
      "please recommend a laptop").category ≠ some "laptop" ∧
    (extract_search_intent wDecodeFail (some "i do not understand this phone question")
      "please recommend a laptop").search_query ≠ "please recommend a laptop" := by
  decide

/-- C1, amended: for every user message whose model reply cannot be decoded as
structured data, the extractor applies the fixed ordered keyword-to-category
rules (phone keywords, then laptop keywords, then tablet keywords; first match
wins, unmatched leaves the category unset) to the model reply, and sets
`search_query` to the model reply, leaving every other intent field unset. -/
theorem extract_intent_fallback :
    ∀ (decodeJson : String → Option SearchIntent) (response user_message : String),
      attemptDecode decodeJson response = none →
      extract_search_intent decodeJson (some response) user_message =
        { category := firstMatchingRule response, min_price := none, max_price := none,
          brand := none, features := [], search_query := response } := by
  intro d r m h
  show parse_intent_response d r = _
  unfold parse_intent_response
  rw [h, fallbackCategory_eq_firstMatchingRule]

/-- C1, witness: a keyword-free, brace-free reply yields the unset-category
fallback intent carrying the reply as search query. -/
theorem extract_intent_fallback_witness :
    attemptDecode wDecodeFail "just plain words" = none ∧
    extract_search_intent wDecodeFail (some "just plain words") "msg" =
      { category := none, min_price := none, max_price := none, brand := none,
        features := [], search_query := "just plain words" } := by
  refine ⟨rfl, ?_⟩
  rw [extract_intent_fallback wDecodeFail "just plain words" "msg" rfl]
  decide

/-- C2: the retrieval step of `chat` applies exactly one filter dimension,
chosen by priority — category first, then brand, then the price range when
both bounds are present, then no filter — and the filter actually passed to
the index adapter is `retrievalFilter` of the extracted intent; in particular
an intent with both category and brand set yields the category-only filter. -/
theorem chat_retrieval_priority :
    (∀ (env : ChatEnv) (user_message : String),
      chatProducts env user_message =
        search_products env.embedCall env.indexCall
          (intentOf env user_message).search_query 5
          (retrievalFilter (intentOf env user_message))) ∧
    (∀ intent : SearchIntent, ∀ c : String, intent.category = some c → c ≠ "" →
      retrievalFilter intent = FilterDict.category c) ∧
    (∀ intent : SearchIntent, truthyStr intent.category = false →
      ∀ b : String, intent.brand = some b → b ≠ "" →
      retrievalFilter intent = FilterDict.brand b) ∧
    (∀ intent : SearchIntent, truthyStr intent.category = false →
      truthyStr intent.brand = false →
      ∀ lo hi : Int, intent.min_price = some lo → intent.max_price = some hi →
      retrievalFilter intent = FilterDict.price lo hi) ∧
    (∀ intent : SearchIntent, truthyStr intent.category = false →
      truthyStr intent.brand = false →
      (intent.min_price = none ∨ intent.max_price = none) →
      retrievalFilter intent = FilterDict.noFilter) := by
  refine ⟨?_, ?_, ?_, ?_, ?_⟩
  · intro env msg
    exact chatProducts_eq env msg
  · intro intent c hc hcne
    unfold retrievalFilter
    rw [if_pos (by rw [hc]; simp [truthyStr, hcne]), hc]
    rfl
  · intro intent hcat b hb hbne
    unfold retrievalFilter
    rw [if_neg (by simp [hcat]), if_pos (by rw [hb]; simp [truthyStr, hbne]), hb]
    rfl
  · intro intent hcat hbrand lo hi hlo hhi
    unfold retrievalFilter
    rw [if_neg (by simp [hcat]), if_neg (by simp [hbrand]),
      if_pos (by rw [hlo, hhi]; rfl), hlo, hhi]
    rfl
  · intro intent hcat hbrand hnone
    unfold retrievalFilter
    rw [if_neg (by simp [hcat]), if_neg (by simp [hbrand]),
      if_neg (by rcases hnone with h | h <;> simp [h])]

/-- C2, witness: an intent with both category `"laptop"` and brand `"Apple"`
set is dispatched with the category-only filter. -/
theorem chat_retrieval_priority_witness :
    wIntentBoth.category = some "laptop" ∧
    wIntentBoth.brand = some "Apple" ∧
    retrievalFilter wIntentBoth = FilterDict.category "laptop" := by
  refine ⟨rfl, rfl, ?_⟩
  exact chat_retrieval_priority.2.1 wIntentBoth "laptop" rfl (by decide)

/-- C3: whenever retrieval yields no products, `chat` returns the fixed
clarification message — which names all four example clues (device type,
budget, features, brand) — and the result does not depend on the
conversational composer, which is therefore never invoked. -/
theorem chat_empty_retrieval :
    ∀ (env : ChatEnv) (user_message : String),
      chatProducts env user_message = [] →
      chat env user_message = clarificationMsg ∧
      (∀ c : Option String,
        chat { env with composeCall := c } user_message = clarificationMsg) ∧
      pyIn "device" clarificationMsg = true ∧
      pyIn "budget" clarificationMsg = true ∧
      pyIn "features" clarificationMsg = true ∧
      pyIn "brand" clarificationMsg = true := by
  intro env msg h
  have hmain : ∀ c : Option String,
      chat { env with composeCall := c } msg = clarificationMsg := by
    intro c
    have h2 : chatProducts { env with composeCall := c } msg = [] := h
    simp [chat, h2]
  have h1 : chat env msg = clarificationMsg := by simp [chat, h]
  exact ⟨h1, hmain, by decide, by decide, by decide, by decide⟩

/-- C3, witness: a concrete turn whose index query returns no matches yields
the clarification message, with any composer reply left unused. -/
theorem chat_empty_retrieval_witness :
    chatProducts wEnvC3 "hello" = [] ∧
    chat wEnvC3 "hello" = clarificationMsg ∧
    chat { wEnvC3 with composeCall := some "ignored" } "hello" = clarificationMsg := by
  have h : chatProducts wEnvC3 "hello" = [] := rfl
  exact ⟨h, (chat_empty_retrieval wEnvC3 "hello" h).1,
    (chat_empty_retrieval wEnvC3 "hello" h).2.1 (some "ignored")⟩

/-- C5, counterexample: when the embedding client raises, `chat` returns the
fixed clarification message, which differs from the generic apology message
the claim names. -/
theorem chat_embedding_failure_cex :
    chat wEnvC5 "I need a phone" = clarificationMsg ∧
    clarificationMsg ≠ apologyMsg ∧
    apologyMsg ≠ "" := by
  exact ⟨rfl, by decide, by decide⟩

/-- C5, amended: for every user turn in which the embedding client raises,
`chat` still returns a non-empty string and no exception propagates — but
that string is the fixed clarification message (retrieval degrades to an
empty result), not the generic apology. -/
theorem chat_embedding_failure :
    ∀ (env : ChatEnv) (user_message : String),
      (∀ q : String, env.embedCall q = none) →
      chat env user_message = clarificationMsg ∧ chat env user_message ≠ "" := by
  intro env msg h
  have hp : chatProducts env msg = [] := by
    rw [chatProducts_eq]
    simp [search_products, h, generate_embedding]
  have h1 : chat env msg = clarificationMsg := by simp [chat, hp]
  refine ⟨h1, ?_⟩
  rw [h1]
  decide

/-- C5, witness: a concrete environment whose embedding client always raises
still gets the clarification message back from `chat`, a non-empty string. -/
theorem chat_embedding_failure_witness :
    wEnvC5.embedCall "any query" = none ∧
    chat wEnvC5 "hi" = clarificationMsg ∧
    chat wEnvC5 "hi" ≠ "" := by
  have h := chat_embedding_failure wEnvC5 "hi" (fun _ => rfl)
  exact ⟨rfl, h.1, h.2⟩

/-- C6: on every non-empty product list the templated formatter produces the
fixed header, then the numbered entries (rank starting at 1) for at most the
first 3 products in the order received — each rendered per `renderEntrySpec`:
name, price, brand, description, then screen size, storage and processor in
that order omitting absent keys, then the first 3 features comma-joined, then
the similarity score to two decimal places defaulting to 0 — then, when more
than 3 products were supplied, the remainder count `len(products) - 3`, and
finally the fixed follow-up prompt. -/
theorem formatTemplated_nonempty :
    ∀ products : List Product, products ≠ [] →
      format_product_recommendations products =
        "Here are some great options for you:\n\n" ++
        String.join ((List.enumFrom 1 (products.take 3)).map renderEntryPair) ++
        (if 3 < products.length then
          "... and " ++ toString (products.length - 3) ++ " more options available.\n\n"
         else "") ++
        "Would you like me to provide more details about any of these products or help you narrow down your search?" := by
  intro ps h
  have hne : ps.isEmpty = false := by
    cases ps with
    | nil => exact absurd rfl h
    | cons a l => rfl
  simp only [format_product_recommendations, hne, Bool.false_eq_true, if_false]
  rw [renderLoop_eq_join]
  by_cases h3 : 3 < ps.length
  · rw [if_pos h3, if_pos h3]
    simp [String.append_assoc]
  · rw [if_neg h3, if_neg h3]
    simp [String.append_assoc]

/-- C6, witness: the four-product list exercises the top-3 cut, the remainder
count and every optional rendering component. -/
theorem formatTemplated_nonempty_witness :
    wListC6 ≠ [] ∧
    format_product_recommendations wListC6 =
      "Here are some great options for you:\n\n" ++
      String.join ((List.enumFrom 1 (wListC6.take 3)).map renderEntryPair) ++
      (if 3 < wListC6.length then
        "... and " ++ toString (wListC6.length - 3) ++ " more options available.\n\n"
       else "") ++
      "Would you like me to provide more details about any of these products or help you narrow down your search?" := by
  exact ⟨by decide, formatTemplated_nonempty wListC6 (by decide)⟩
